import Mathlib

/-!
# Scan orchestration and result memoization of nuclei-mcp

A shallow embedding of `pkg/scanner/scanner.go`: cache-key derivation,
template resolution, and the three scan entry points (`Scan`,
`ThreadSafeScan`, `BasicScan`), followed by the theorems that settle the
specification's claims about them.

Go strings are embedded as Lean strings (so the theorems range over the Go
strings that are valid UTF-8), Go `error` values as
`Option GoError` (`none` is `nil`), and a Go result pair `(ScanResult, error)`
as a Lean pair.  Every call on a collaborator (cache, logger, file system,
scan engine, clock) is recorded, in program order, in a trace of `Effect`s.
-/

namespace NucleiMcp

/-! ## Go values -/

/-- A Go `error` value: its message and what `os.IsNotExist` reports for it. -/
structure GoError where
  msg : String
  notExist : Bool
deriving DecidableEq

/-- The fields of `output.ResultEvent` that the scanner reads (for its log
line); the record is otherwise passed through untouched. -/
structure ResultEvent where
  Name : String
  Severity : String
  Host : String
deriving DecidableEq

/-- The value `cache.ScanResult`; `ScanTime` is a clock reading, with `0` for
the zero `time.Time`. -/
structure ScanResult where
  Target : String
  Findings : List ResultEvent
  ScanTime : Nat
deriving DecidableEq

/-- The Go zero value `cache.ScanResult{}`. -/
def ScanResult.empty : ScanResult := { Target := "", Findings := [], ScanTime := 0 }

/-- One entry of an `os.ReadDir` listing. -/
structure DirEntry where
  Name : String
  IsDir : Bool
deriving DecidableEq

/-- The value `lib.TemplateSources`, of which only `Templates` is filled. -/
structure TemplateSources where
  Templates : List String
deriving DecidableEq

/-- The value `lib.TemplateFilters`, of which two fields are filled. -/
structure TemplateFilters where
  Severity : String
  ProtocolTypes : String
deriving DecidableEq

/-- The engine options (`lib.NucleiSDKOptions`) that the scanner builds. -/
inductive NucleiSDKOptions where
  | DisableUpdateCheck
  | WithTemplatesOrWorkflows (sources : TemplateSources)
  | WithTemplateFilters (filters : TemplateFilters)
deriving DecidableEq

/-- An operand of a `Logger.Log` call. -/
inductive LogArg where
  | str (s : String)
  | int (n : Nat)
  | err (e : GoError)
deriving DecidableEq

/-! ## Library functions used by the scanner -/

/-- The list of left-over operands as `fmt` prints it. -/
def Sprintf.extra : List String → List Char
  | [] => []
  | [a] => "string=".data ++ a.data
  | a :: b :: rest => "string=".data ++ a.data ++ ", ".data ++ Sprintf.extra (b :: rest)

/-- The text `fmt` appends for operands left over once the format is used up. -/
def Sprintf.leftover : List String → List Char
  | [] => []
  | a :: args => "%!(EXTRA ".data ++ Sprintf.extra (a :: args) ++ [')']

/-- The formatting loop of `fmt.Sprintf` over string operands: `%s` prints the
next operand verbatim, `%%` a percent sign, any other verb reports a bad verb,
and a verb without operand reports it missing.  Flags, widths and operand
indexes are left out: no format of the scanner has one. -/
def Sprintf.go : List Char → List String → List Char
  | [], args => Sprintf.leftover args
  | c :: rest, args =>
    if c = '%' then
      match rest with
      | [] => "%!(NOVERB)".data ++ Sprintf.leftover args
      | v :: rest' =>
        if v = '%' then '%' :: Sprintf.go rest' args
        else
          match args with
          | [] => "%!".data ++ [v] ++ "(MISSING)".data ++ Sprintf.go rest' []
          | a :: args' =>
            if v = 's' then a.data ++ Sprintf.go rest' args'
            else "%!".data ++ [v] ++ "(string=".data ++ a.data ++ [')'] ++ Sprintf.go rest' args'
    else c :: Sprintf.go rest args

/-- The function `fmt.Sprintf`, for string operands. -/
def Sprintf (format : String) (args : List String) : String :=
  ⟨Sprintf.go format.data args⟩

/-- The function `strings.Join`. -/
def Join : List String → String → String
  | [], _ => ""
  | [a], _ => a
  | a :: b :: rest, sep => a ++ sep ++ Join (b :: rest) sep

/-- The function `strings.HasSuffix`. -/
def HasSuffix (s suffix : String) : Bool :=
  suffix.data.isSuffixOf s.data

/-! ## Collaborators -/

/-- A `context.Context` handed to the thread-safe engine; the scanner only
passes it on. -/
structure Context where
  token : Nat
deriving DecidableEq

/-- Modelled from the spec: the contract `cache.ResultCacheInterface` (package
`cache` is not among the sources), over a store of type `σ`.  `Get` is a pure
lookup returning the stored value and whether it was found, `Set` is an
upsert, `GetAll` lists the stored results. -/
structure ResultCacheInterface (σ : Type) where
  Get : σ → String → ScanResult × Bool
  Set : σ → String → ScanResult → σ
  GetAll : σ → List ScanResult

/-- What the outside world answers during one call: the file system
(`os.ReadDir`, `os.Stat`, `filepath.Join`), the scan engine (construction,
template loading, and execution, which delivers a sequence of events to the
callback, in the order the callback acquired its lock, and then returns an
error or nil), and the clock (`time.Now`). -/
structure Env where
  ReadDir : String → List DirEntry × Option GoError
  Stat : String → Option GoError
  FilepathJoin : String → String → String
  NewNucleiEngine : List NucleiSDKOptions → Option GoError
  NewThreadSafeNucleiEngineCtx : Context → List NucleiSDKOptions → Option GoError
  LoadAllTemplates : List NucleiSDKOptions → Option GoError
  ExecuteWithCallback : List NucleiSDKOptions → List String → Bool → List ResultEvent × Option GoError
  ExecuteNucleiWithOptsCtx :
    Context → List NucleiSDKOptions → List String → List ResultEvent × Option GoError
  Now : Nat

/-- A call the scanner makes on a collaborator. -/
inductive Effect where
  | cacheGet (key : String)
  | cacheSet (key : String) (result : ScanResult)
  | log (format : String) (args : List LogArg)
  | readDir (dir : String)
  | stat (path : String)
  | newNucleiEngine (options : List NucleiSDKOptions)
  | newThreadSafeNucleiEngineCtx (ctx : Context) (options : List NucleiSDKOptions)
  | loadAllTemplates
  | loadTargets (targets : List String) (probeNonHttp : Bool)
  | globalResultCallback
  | executeWithCallback
  | executeNucleiWithOptsCtx (ctx : Context) (targets : List String)
      (options : List NucleiSDKOptions)
  | executeReturned (err : Option GoError)
  | timeNow
  | close
deriving DecidableEq

/-- The effect is a write to the cache. -/
@[simp] def Effect.isSet : Effect → Bool
  | .cacheSet _ _ => true
  | _ => false

/-- The effect is a call on the scan engine or its constructor. -/
@[simp] def Effect.isEngine : Effect → Bool
  | .newNucleiEngine _ => true
  | .newThreadSafeNucleiEngineCtx _ _ => true
  | .loadAllTemplates => true
  | .loadTargets _ _ => true
  | .globalResultCallback => true
  | .executeWithCallback => true
  | .executeNucleiWithOptsCtx _ _ _ => true
  | .executeReturned _ => true
  | .close => true
  | _ => false

/-- The effect is a file-system access of template resolution. -/
@[simp] def Effect.isResolve : Effect → Bool
  | .readDir _ => true
  | .stat _ => true
  | _ => false

/-- The mutable surroundings of a call: the cache store, and the calls made
so far. -/
structure World (σ : Type) where
  cache : σ
  trace : List Effect

/-- Record one more call. -/
def World.emit {σ : Type} (w : World σ) (e : Effect) : World σ :=
  { w with trace := w.trace ++ [e] }

/-! ## The scanner -/

/-- The struct `ScannerService`; its logger is the trace, and its two cache
fields, which the constructor keeps equal, are one. -/
structure ScannerService (σ : Type) where
  cache : ResultCacheInterface σ
  TemplatesDir : String
  BasicTemplateName : String

/-- The method `ScannerService.CreateCacheKey`. -/
def CreateCacheKey {σ : Type} (_s : ScannerService σ) (target severity protocols : String) :
    String :=
  Sprintf "%s:%s:%s" [target, severity, protocols]

/-- The method `ScannerService.loadTemplates`. -/
def loadTemplates {σ : Type} (s : ScannerService σ) (env : Env) (w : World σ)
    (templateIDs : List String) : (TemplateSources × Option GoError) × World σ :=
  let templateSources : TemplateSources := { Templates := [] }
  if templateIDs.length = 0 then
    let w := w.emit (.readDir s.TemplatesDir)
    match env.ReadDir s.TemplatesDir with
    | (_, some err) =>
      ((templateSources, some err),
        w.emit (.log "Failed to read templates directory %s: %v" [.str s.TemplatesDir, .err err]))
    | (files, none) =>
      let templatePaths := files.foldl (fun (acc : List String) file =>
        if !file.IsDir && (HasSuffix file.Name ".yaml" || HasSuffix file.Name ".yml") then
          acc ++ [env.FilepathJoin s.TemplatesDir file.Name]
        else acc) []
      if templatePaths.length = 0 then
        ((templateSources,
            some { msg := Sprintf "no templates found in %s" [s.TemplatesDir], notExist := false }),
          w.emit (.log "No templates found in directory: %s" [.str s.TemplatesDir]))
      else (({ Templates := templatePaths }, none), w)
  else
    let fullPathTemplates := templateIDs.foldl (fun (acc : List String) tpl =>
      acc ++ [env.FilepathJoin s.TemplatesDir tpl]) []
    (({ Templates := fullPathTemplates }, none), w)

/-- The finding callback of the three scans: under the lock, append the event
and log it. -/
def callback {σ : Type} (acc : List ResultEvent × World σ) (event : ResultEvent) :
    List ResultEvent × World σ :=
  (acc.1 ++ [event],
    acc.2.emit (.log "Found vulnerability: %s (%s) on %s"
      [.str event.Name, .str event.Severity, .str event.Host]))

/-- The cache key of `Scan` and of `ThreadSafeScan` (lines 94-98 and 171-174,
which are the same statements). -/
def Scan.cacheKey {σ : Type} (s : ScannerService σ) (target severityFilter protocolFilter : String)
    (templateIDs : List String) : String :=
  let cacheKey := CreateCacheKey s target severityFilter protocolFilter
  if templateIDs.length > 0 then cacheKey ++ (":" ++ Join templateIDs ",") else cacheKey

/-- The engine options of `Scan` and of `ThreadSafeScan` (lines 107-123 and
183-199, which are the same statements). -/
def Scan.options (templateSources : TemplateSources) (severityFilter protocolFilter : String) :
    List NucleiSDKOptions :=
  let options := [NucleiSDKOptions.DisableUpdateCheck]
  let options := options ++ [NucleiSDKOptions.WithTemplatesOrWorkflows templateSources]
  if severityFilter ≠ "" || protocolFilter ≠ "" then
    options ++ [NucleiSDKOptions.WithTemplateFilters
      { Severity := severityFilter, ProtocolTypes := protocolFilter }]
  else options

/-- The method `ScannerService.Scan`. -/
def Scan {σ : Type} (s : ScannerService σ) (env : Env) (w : World σ)
    (target severityFilter protocolFilter : String) (templateIDs : List String) :
    (ScanResult × Option GoError) × World σ :=
  let cacheKey := Scan.cacheKey s target severityFilter protocolFilter templateIDs
  let w := w.emit (.cacheGet cacheKey)
  match s.cache.Get w.cache cacheKey with
  | (result, true) =>
    ((result, none),
      w.emit (.log "Returning cached scan result for %s (%d findings)"
        [.str target, .int result.Findings.length]))
  | (_, false) =>
    let w := w.emit (.log "Starting new scan for target: %s" [.str target])
    match loadTemplates s env w templateIDs with
    | ((_, some err), w) => ((ScanResult.empty, some err), w)
    | ((templateSources, none), w) =>
      let options := Scan.options templateSources severityFilter protocolFilter
      let w := w.emit (.newNucleiEngine options)
      match env.NewNucleiEngine options with
      | some err =>
        ((ScanResult.empty, some err),
          w.emit (.log "Failed to create nuclei engine: %v" [.err err]))
      | none =>
        let w := w.emit .loadAllTemplates
        match env.LoadAllTemplates options with
        | some err =>
          ((ScanResult.empty, some err),
            ((w.emit (.log "Failed to load templates: %v" [.err err])).emit .close))
        | none =>
          let w := w.emit (.loadTargets [target] false)
          let w := w.emit .executeWithCallback
          let run := env.ExecuteWithCallback options [target] false
          let (findings, w) := run.1.foldl callback ([], w)
          let w := w.emit (.executeReturned run.2)
          match run.2 with
          | some err =>
            ((ScanResult.empty, some err),
              ((w.emit (.log "Scan failed: %v" [.err err])).emit .close))
          | none =>
            let w := w.emit .timeNow
            let result : ScanResult :=
              { Target := target, Findings := findings, ScanTime := env.Now }
            let w := { w with cache := s.cache.Set w.cache cacheKey result }
            let w := w.emit (.cacheSet cacheKey result)
            let w := w.emit (.log "Scan completed for %s, found %d vulnerabilities"
              [.str target, .int findings.length])
            ((result, none), w.emit .close)

/-- The method `ScannerService.ThreadSafeScan`. -/
def ThreadSafeScan {σ : Type} (s : ScannerService σ) (env : Env) (w : World σ) (ctx : Context)
    (target severity protocols : String) (templateIDs : List String) :
    (ScanResult × Option GoError) × World σ :=
  let cacheKey := Scan.cacheKey s target severity protocols templateIDs
  let w := w.emit (.cacheGet cacheKey)
  match s.cache.Get w.cache cacheKey with
  | (result, true) =>
    ((result, none),
      w.emit (.log "Returning cached scan result for %s (%d findings)"
        [.str target, .int result.Findings.length]))
  | (_, false) =>
    let w := w.emit (.log "Starting new thread-safe scan for target: %s" [.str target])
    match loadTemplates s env w templateIDs with
    | ((_, some err), w) => ((ScanResult.empty, some err), w)
    | ((templateSources, none), w) =>
      let options := Scan.options templateSources severity protocols
      let w := w.emit (.newThreadSafeNucleiEngineCtx ctx options)
      match env.NewThreadSafeNucleiEngineCtx ctx options with
      | some err =>
        ((ScanResult.empty, some err),
          w.emit (.log "Failed to create thread-safe nuclei engine: %v" [.err err]))
      | none =>
        let w := w.emit .globalResultCallback
        let w := w.emit (.executeNucleiWithOptsCtx ctx [target] options)
        let run := env.ExecuteNucleiWithOptsCtx ctx options [target]
        let (findings, w) := run.1.foldl callback ([], w)
        let w := w.emit (.executeReturned run.2)
        match run.2 with
        | some err =>
          ((ScanResult.empty, some err),
            ((w.emit (.log "Thread-safe scan failed: %v" [.err err])).emit .close))
        | none =>
          let w := w.emit .timeNow
          let result : ScanResult :=
            { Target := target, Findings := findings, ScanTime := env.Now }
          let w := { w with cache := s.cache.Set w.cache cacheKey result }
          let w := w.emit (.cacheSet cacheKey result)
          let w := w.emit (.log "Thread-safe scan completed for %s, found %d vulnerabilities"
            [.str target, .int findings.length])
          ((result, none), w.emit .close)

/-- The cache key of `BasicScan` (line 241). -/
def BasicScan.cacheKey (target : String) : String :=
  Sprintf "basic:%s" [target]

/-- The engine options of `BasicScan` (lines 257-262). -/
def BasicScan.options (basicTemplatePath : String) : List NucleiSDKOptions :=
  [NucleiSDKOptions.WithTemplatesOrWorkflows { Templates := [basicTemplatePath] },
    NucleiSDKOptions.DisableUpdateCheck]

/-- The test `os.IsNotExist(err)` on the error of `os.Stat`. -/
def IsNotExist : Option GoError → Bool
  | some err => err.notExist
  | none => false

/-- The method `ScannerService.BasicScan`. -/
def BasicScan {σ : Type} (s : ScannerService σ) (env : Env) (w : World σ) (target : String) :
    (ScanResult × Option GoError) × World σ :=
  let cacheKey := BasicScan.cacheKey target
  let w := w.emit (.cacheGet cacheKey)
  match s.cache.Get w.cache cacheKey with
  | (result, true) =>
    ((result, none),
      w.emit (.log "Returning cached basic scan result for %s (%d findings)"
        [.str target, .int result.Findings.length]))
  | (_, false) =>
    let w := w.emit (.log "Starting new basic scan for target: %s" [.str target])
    let basicTemplatePath := env.FilepathJoin s.TemplatesDir s.BasicTemplateName
    let w := w.emit (.stat basicTemplatePath)
    if IsNotExist (env.Stat basicTemplatePath) then
      ((ScanResult.empty,
          some { msg := Sprintf "basic test template not found: %s" [basicTemplatePath],
                 notExist := false }),
        w.emit (.log "Basic test template not found at %s" [.str basicTemplatePath]))
    else
      let opts := BasicScan.options basicTemplatePath
      let w := w.emit (.newNucleiEngine opts)
      match env.NewNucleiEngine opts with
      | some err =>
        ((ScanResult.empty, some err),
          w.emit (.log "Failed to create nuclei engine: %v" [.err err]))
      | none =>
        let w := w.emit (.loadTargets [target] true)
        let w := w.emit .executeWithCallback
        let run := env.ExecuteWithCallback opts [target] true
        let (findings, w) := run.1.foldl callback ([], w)
        let w := w.emit (.executeReturned run.2)
        match run.2 with
        | some err =>
          ((ScanResult.empty, some err),
            ((w.emit (.log "Basic scan failed: %v" [.err err])).emit .close))
        | none =>
          let w := w.emit .timeNow
          let result : ScanResult :=
            { Target := target, Findings := findings, ScanTime := env.Now }
          let w := { w with cache := s.cache.Set w.cache cacheKey result }
          let w := w.emit (.cacheSet cacheKey result)
          let w := w.emit (.log "Basic scan completed for %s, found %d vulnerabilities"
            [.str target, .int findings.length])
          ((result, none), w.emit .close)

/-- The method `ScannerService.GetAll`. -/
def GetAll {σ : Type} (s : ScannerService σ) (w : World σ) : List ScanResult :=
  s.cache.GetAll w.cache

/-! ## Concrete collaborators, for evaluating the scanner -/

/-- A cache over an association list: `Get` finds the latest entry for the
key, `Set` puts a new entry in front. -/
def listCache : ResultCacheInterface (List (String × ScanResult)) where
  Get := fun store key =>
    match store.find? (fun kv => kv.1 == key) with
    | some kv => (kv.2, true)
    | none => (ScanResult.empty, false)
  Set := fun store key result => (key, result) :: store
  GetAll := fun store => store.map Prod.snd

/-- A service over the list cache. -/
def demoService : ScannerService (List (String × ScanResult)) :=
  { cache := listCache, TemplatesDir := "templates", BasicTemplateName := "basic-test.yaml" }

/-- A finding. -/
def demoEvent : ResultEvent := { Name := "open-redirect", Severity := "low", Host := "x" }

/-- A world in which the templates directory holds one template and a
sub-directory, every file exists, and the engine reports one finding. -/
def demoEnv : Env where
  ReadDir := fun _ => ([{ Name := "a.yaml", IsDir := false }, { Name := "sub.yaml", IsDir := true },
    { Name := "notes.txt", IsDir := false }], none)
  Stat := fun _ => none
  FilepathJoin := fun dir name => dir ++ "/" ++ name
  NewNucleiEngine := fun _ => none
  NewThreadSafeNucleiEngineCtx := fun _ _ => none
  LoadAllTemplates := fun _ => none
  ExecuteWithCallback := fun _ _ _ => ([demoEvent], none)
  ExecuteNucleiWithOptsCtx := fun _ _ _ => ([demoEvent], none)
  Now := 42

/-- A world in which the templates directory does not exist and the engine
cannot be built. -/
def brokenEnv : Env where
  ReadDir := fun _ => ([], some { msg := "no such file or directory", notExist := true })
  Stat := fun _ => some { msg := "no such file or directory", notExist := true }
  FilepathJoin := fun dir name => dir ++ "/" ++ name
  NewNucleiEngine := fun _ => some { msg := "engine", notExist := false }
  NewThreadSafeNucleiEngineCtx := fun _ _ => some { msg := "engine", notExist := false }
  LoadAllTemplates := fun _ => some { msg := "load", notExist := false }
  ExecuteWithCallback := fun _ _ _ => ([], some { msg := "execute", notExist := false })
  ExecuteNucleiWithOptsCtx := fun _ _ _ => ([], some { msg := "execute", notExist := false })
  Now := 7

/-- The empty world. -/
def emptyWorld : World (List (String × ScanResult)) := { cache := [], trace := [] }

/-! ## The calls of the scan interface, and what the theorems say about them -/

/-- What follows the first element in the text of a joined list. -/
def joinTail : List String → List Char
  | [] => []
  | b :: rest => ',' :: (Join (b :: rest) ",").data

/-- The entries of a listing that `loadTemplates` selects: not a directory, and a
name ending in `.yaml` or `.yml`. -/
def templateFiles (files : List DirEntry) : List DirEntry :=
  files.filter (fun file =>
    !file.IsDir && (HasSuffix file.Name ".yaml" || HasSuffix file.Name ".yml"))

/-- A call of one of the three scan methods of `ScannerServiceInterface`. -/
inductive Call where
  | scan (target severityFilter protocolFilter : String) (templateIDs : List String)
  | threadSafeScan (ctx : Context) (target severity protocols : String)
      (templateIDs : List String)
  | basicScan (target : String)
deriving DecidableEq

/-- The target of the call. -/
def Call.target : Call → String
  | .scan target _ _ _ => target
  | .threadSafeScan _ target _ _ _ => target
  | .basicScan target => target

/-- The cache key the method derives. -/
def Call.cacheKey {σ : Type} (s : ScannerService σ) : Call → String
  | .scan target sev prot ids => Scan.cacheKey s target sev prot ids
  | .threadSafeScan _ target sev prot ids => Scan.cacheKey s target sev prot ids
  | .basicScan target => BasicScan.cacheKey target

/-- Run the method. -/
def Call.run {σ : Type} (s : ScannerService σ) (env : Env) (w : World σ) :
    Call → (ScanResult × Option GoError) × World σ
  | .scan target sev prot ids => Scan s env w target sev prot ids
  | .threadSafeScan ctx target sev prot ids => ThreadSafeScan s env w ctx target sev prot ids
  | .basicScan target => BasicScan s env w target

/-- The calls a method made: the trace after it without the trace before it. -/
def effectsSince {σ : Type} (w : World σ) (out : (ScanResult × Option GoError) × World σ) :
    List Effect :=
  out.2.trace.drop w.trace.length

/-- The error of the resolution step of a call: that of `loadTemplates`, or, in
`BasicScan`, the error returned when the basic template does not exist. -/
def Call.resolveError {σ : Type} (s : ScannerService σ) (env : Env) (w : World σ) :
    Call → Option GoError
  | .scan _ _ _ ids => (loadTemplates s env w ids).1.2
  | .threadSafeScan _ _ _ _ ids => (loadTemplates s env w ids).1.2
  | .basicScan _ =>
    if IsNotExist (env.Stat (env.FilepathJoin s.TemplatesDir s.BasicTemplateName)) then
      some { msg := Sprintf "basic test template not found: %s"
               [env.FilepathJoin s.TemplatesDir s.BasicTemplateName],
             notExist := false }
    else none

/-- The options with which a call builds its engine. -/
def Call.options {σ : Type} (s : ScannerService σ) (env : Env) (w : World σ) :
    Call → List NucleiSDKOptions
  | .scan _ sev prot ids => Scan.options (loadTemplates s env w ids).1.1 sev prot
  | .threadSafeScan _ _ sev prot ids => Scan.options (loadTemplates s env w ids).1.1 sev prot
  | .basicScan _ => BasicScan.options (env.FilepathJoin s.TemplatesDir s.BasicTemplateName)

/-- The error of the engine constructor of a call. -/
def Call.engineError {σ : Type} (s : ScannerService σ) (env : Env) (w : World σ) (call : Call) :
    Option GoError :=
  match call with
  | .scan _ _ _ _ => env.NewNucleiEngine (call.options s env w)
  | .threadSafeScan ctx _ _ _ _ => env.NewThreadSafeNucleiEngineCtx ctx (call.options s env w)
  | .basicScan _ => env.NewNucleiEngine (call.options s env w)

/-- The error of the template-loading step of a call; only `Scan` has the step. -/
def Call.loadError {σ : Type} (s : ScannerService σ) (env : Env) (w : World σ) (call : Call) :
    Option GoError :=
  match call with
  | .scan _ _ _ _ => env.LoadAllTemplates (call.options s env w)
  | .threadSafeScan _ _ _ _ _ => none
  | .basicScan _ => none

/-- The engine execution of a call: the events delivered to the callback, and the
error returned. -/
def Call.execution {σ : Type} (s : ScannerService σ) (env : Env) (w : World σ) (call : Call) :
    List ResultEvent × Option GoError :=
  match call with
  | .scan target _ _ _ => env.ExecuteWithCallback (call.options s env w) [target] false
  | .threadSafeScan ctx target _ _ _ =>
    env.ExecuteNucleiWithOptsCtx ctx (call.options s env w) [target]
  | .basicScan target => env.ExecuteWithCallback (call.options s env w) [target] true

/-- Some step after the cache lookup fails: template resolution (the existence
check of the basic template in `BasicScan`), engine construction, template loading,
or engine execution. -/
def Call.stepFails {σ : Type} (s : ScannerService σ) (env : Env) (w : World σ) (call : Call) :
    Prop :=
  call.resolveError s env w ≠ none ∨ call.engineError s env w ≠ none
    ∨ call.loadError s env w ≠ none ∨ (call.execution s env w).2 ≠ none

instance {σ : Type} (s : ScannerService σ) (env : Env) (w : World σ) (call : Call) :
    Decidable (call.stepFails s env w) := by
  unfold Call.stepFails
  infer_instance

/-- The outcome of a failed call: the empty result with a non-nil error, the cache
store as before, and no `Set` among the calls made. -/
def FailedUntouched {σ : Type} (w : World σ) (out : (ScanResult × Option GoError) × World σ) :
    Prop :=
  out.1.1 = ScanResult.empty ∧ out.1.2 ≠ none ∧ out.2.cache = w.cache
    ∧ ∀ e ∈ effectsSince w out, e.isSet = false

/-- The outcome of a successful fresh scan: the result holds the target, the
delivered events and the clock reading; the store is the old one after a `Set` of the
result under the key; that `Set` directly follows the return of the execution with a
nil error and the reading of the clock, and no other call is a `Set`. -/
def FreshResult {σ : Type} (s : ScannerService σ) (env : Env) (w : World σ) (key target : String)
    (delivered : List ResultEvent) (out : (ScanResult × Option GoError) × World σ) : Prop :=
  out.1 = ({ Target := target, Findings := delivered, ScanTime := env.Now }, none)
    ∧ out.2.cache = s.cache.Set w.cache key out.1.1
    ∧ ∃ pre post, effectsSince w out =
          pre ++ Effect.executeReturned none :: Effect.timeNow
            :: Effect.cacheSet key out.1.1 :: post
        ∧ (∀ e ∈ pre, e.isSet = false) ∧ (∀ e ∈ post, e.isSet = false)

/-- A cached result. -/
def cachedResult : ScanResult := { Target := "cached.com", Findings := [], ScanTime := 5 }

/-- A world whose cache holds one entry, under the key of the call below. -/
def cachedWorld : World (List (String × ScanResult)) :=
  { cache := [("cached.com:info:http", cachedResult)], trace := [] }

/-- The call of the cache-hit test. -/
def hitCall : Call := .scan "cached.com" "info" "http" []

/-- The call of the cache-miss test. -/
def missCall : Call := .scan "newscan.com" "info" "http" []

/-! ## Cache keys -/

theorem Sprintf_key (a b c : String) :
    Sprintf "%s:%s:%s" [a, b, c] = a ++ ":" ++ b ++ ":" ++ c := by
  apply String.ext
  simp [Sprintf, Sprintf.go, Sprintf.leftover, String.data_append]

theorem BasicScan.cacheKey_eq (target : String) :
    BasicScan.cacheKey target = "basic:" ++ target := by
  apply String.ext
  simp [BasicScan.cacheKey, Sprintf, Sprintf.go, Sprintf.leftover, String.data_append]

theorem Scan.cacheKey_nil {σ : Type} (s : ScannerService σ) (t sev p : String) :
    Scan.cacheKey s t sev p [] = t ++ ":" ++ sev ++ ":" ++ p := by
  simp [Scan.cacheKey, CreateCacheKey, Sprintf_key]

theorem Scan.cacheKey_cons {σ : Type} (s : ScannerService σ) (t sev p id : String)
    (ids : List String) :
    Scan.cacheKey s t sev p (id :: ids) = t ++ ":" ++ sev ++ ":" ++ p ++ (":" ++ Join (id :: ids) ",") := by
  simp [Scan.cacheKey, CreateCacheKey, Sprintf_key]

/-- C3. `CreateCacheKey(t, s, p)` is exactly `t ++ ":" ++ s ++ ":" ++ p`, whatever the
service (its cache, directories and name), so equal arguments give equal keys on
any two services; the two keys of the test suite are instances. -/
theorem CreateCacheKey_spec {σ τ : Type} (svc : ScannerService σ) (svc' : ScannerService τ)
    (t s p : String) :
    CreateCacheKey svc t s p = t ++ ":" ++ s ++ ":" ++ p
      ∧ CreateCacheKey svc' t s p = CreateCacheKey svc t s p
      ∧ CreateCacheKey svc "example.com" "high" "http" = "example.com:high:http"
      ∧ CreateCacheKey svc "test.com" "low" "tcp" = "test.com:low:tcp" := by
  refine ⟨Sprintf_key t s p, rfl, ?_, ?_⟩
  · rw [CreateCacheKey, Sprintf_key]; rfl
  · rw [CreateCacheKey, Sprintf_key]; rfl

/-- C6. For every target `x`, the key of `BasicScan(x)` is `"basic:" ++ x`, the key of
`Scan(x, "", "", nil)` is `x ++ "::"`, and the two differ. -/
theorem BasicScan_key_ne_Scan_key_same_target {σ : Type} (s : ScannerService σ) (x : String) :
    BasicScan.cacheKey x = "basic:" ++ x
      ∧ Scan.cacheKey s x "" "" [] = x ++ "::"
      ∧ BasicScan.cacheKey x ≠ Scan.cacheKey s x "" "" [] := by
  have h1 := BasicScan.cacheKey_eq x
  have h2 : Scan.cacheKey s x "" "" [] = x ++ "::" := by
    rw [Scan.cacheKey_nil]
    apply String.ext
    simp [String.data_append]
  refine ⟨h1, h2, ?_⟩
  rw [h1, h2]
  intro h
  have hl := congrArg String.length h
  simp only [String.length_append] at hl
  have e1 : "basic:".length = 6 := by rfl
  have e2 : "::".length = 2 := by rfl
  omega

/-- The key of `Scan` begins with the target and a colon. -/
theorem Scan.cacheKey_data {σ : Type} (s : ScannerService σ) (t sev p : String)
    (ids : List String) :
    ∃ rest : List Char, (Scan.cacheKey s t sev p ids).data = t.data ++ ':' :: rest := by
  cases ids with
  | nil =>
    refine ⟨sev.data ++ ':' :: p.data, ?_⟩
    rw [Scan.cacheKey_nil]
    simp [String.data_append]
  | cons id ids =>
    refine ⟨sev.data ++ ':' :: (p.data ++ ':' :: (Join (id :: ids) ",").data), ?_⟩
    rw [Scan.cacheKey_cons]
    simp [String.data_append]

/-- A proper beginning of `basic:` that is followed by a colon is `basic`. -/
theorem basic_split (td c : List Char) (h : "basic:".data = td ++ ':' :: c) :
    td = "basic".data := by
  have h' : ['b', 'a', 's', 'i', 'c', ':'] = td ++ ':' :: c := h
  show td = ['b', 'a', 's', 'i', 'c']
  rcases td with _ | ⟨x1, _ | ⟨x2, _ | ⟨x3, _ | ⟨x4, _ | ⟨x5, _ | ⟨x6, td⟩⟩⟩⟩⟩⟩ <;>
    simp at h'
  obtain ⟨rfl, rfl, rfl, rfl, rfl, _⟩ := h'
  rfl

/-- C5, counterexample. `BasicScan("high:http")` and `Scan("basic", "high", "http", nil)`
use the same cache key. -/
theorem basic_key_collision :
    BasicScan.cacheKey "high:http" = Scan.cacheKey demoService "basic" "high" "http" [] := by
  decide

/-- C5, amended. When the scan target is neither `basic` nor begins with `basic:`, the
key `"basic:" ++ b` of `BasicScan` differs from the key that `Scan` and `ThreadSafeScan`
derive for `(t, s, p, ids)`, for every `b`, `s`, `p` and `ids`. -/
theorem basic_key_ne_scan_key {σ : Type} (svc : ScannerService σ) (b t s p : String)
    (ids : List String) (ht : t ≠ "basic") (hpre : ∀ r : String, t ≠ "basic:" ++ r) :
    BasicScan.cacheKey b ≠ Scan.cacheKey svc t s p ids := by
  intro h
  obtain ⟨rest, hrest⟩ := Scan.cacheKey_data svc t s p ids
  have hd : "basic:".data ++ b.data = t.data ++ ':' :: rest := by
    rw [← hrest, ← h, BasicScan.cacheKey_eq, String.data_append]
  rcases List.append_eq_append_iff.mp hd with ⟨a, ha, _⟩ | ⟨c, hc, hc2⟩
  · exact hpre ⟨a⟩ (String.ext (by rw [String.data_append]; exact ha))
  · cases c with
    | nil =>
      refine hpre "" (String.ext ?_)
      rw [String.data_append]
      simpa using hc.symm
    | cons x c =>
      have hx : x = ':' := by
        have := congrArg List.head? hc2
        simpa using this.symm
      subst hx
      exact ht (String.ext (basic_split t.data c hc))

/-- The witness of C5: the keys of `BasicScan("x")` and of
`Scan("example.com", "high", "http", ["a.yaml"])` differ. -/
theorem basic_key_ne_scan_key_witness :
    "example.com" ≠ "basic" ∧ (∀ r : String, "example.com" ≠ "basic:" ++ r)
      ∧ BasicScan.cacheKey "x" ≠ Scan.cacheKey demoService "example.com" "high" "http" ["a.yaml"] :=
  have h1 : "example.com" ≠ "basic" := by decide
  have h2 : ∀ r : String, "example.com" ≠ "basic:" ++ r := by
    intro r h
    have := congrArg (fun x => x.data.head?) h
    simp [String.data_append] at this
  ⟨h1, h2, basic_key_ne_scan_key demoService "x" "example.com" "high" "http" ["a.yaml"] h1 h2⟩

theorem Join_cons_data (a : String) (rest : List String) :
    (Join (a :: rest) ",").data = a.data ++ joinTail rest := by
  cases rest with
  | nil => simp [Join, joinTail]
  | cons b rest =>
    simp only [Join, joinTail, String.data_append]
    simp

/-- Two comma-free words, each followed by nothing or by a comma, are equal when
the texts are, and so are the rests. -/
theorem comma_free_split (a b r₁ r₂ : List Char) (ha : ',' ∉ a) (hb : ',' ∉ b)
    (h₁ : r₁ = [] ∨ ∃ t, r₁ = ',' :: t) (h₂ : r₂ = [] ∨ ∃ t, r₂ = ',' :: t)
    (h : a ++ r₁ = b ++ r₂) : a = b ∧ r₁ = r₂ := by
  induction a generalizing b with
  | nil =>
    cases b with
    | nil => exact ⟨rfl, by simpa using h⟩
    | cons y b =>
      exfalso
      rcases h₁ with rfl | ⟨t, rfl⟩
      · simp at h
      · simp at h
        exact hb (by rw [← h.1]; exact List.mem_cons_self _ _)
  | cons x a ih =>
    cases b with
    | nil =>
      exfalso
      rcases h₂ with rfl | ⟨t, rfl⟩
      · simp at h
      · simp at h
        exact ha (by rw [h.1]; exact List.mem_cons_self _ _)
    | cons y b =>
      simp only [List.cons_append, List.cons.injEq] at h
      have ha' : ',' ∉ a := fun hm => ha (List.mem_cons_of_mem _ hm)
      have hb' : ',' ∉ b := fun hm => hb (List.mem_cons_of_mem _ hm)
      obtain ⟨e, hr⟩ := ih b ha' hb' h.2
      exact ⟨by rw [h.1, e], hr⟩

theorem joinTail_shape (l : List String) : joinTail l = [] ∨ ∃ t, joinTail l = ',' :: t := by
  cases l with
  | nil => exact Or.inl rfl
  | cons b rest => exact Or.inr ⟨_, rfl⟩

/-- On non-empty lists of comma-free strings, `strings.Join` with a comma is
injective. -/
theorem Join_injective (l₁ l₂ : List String) (n₁ : l₁ ≠ []) (n₂ : l₂ ≠ [])
    (h₁ : ∀ id ∈ l₁, ',' ∉ id.data) (h₂ : ∀ id ∈ l₂, ',' ∉ id.data)
    (h : Join l₁ "," = Join l₂ ",") : l₁ = l₂ := by
  induction l₁ generalizing l₂ with
  | nil => exact absurd rfl n₁
  | cons a as ih =>
    cases l₂ with
    | nil => exact absurd rfl n₂
    | cons b bs =>
      have hd := congrArg String.data h
      rw [Join_cons_data, Join_cons_data] at hd
      obtain ⟨e, hr⟩ := comma_free_split a.data b.data (joinTail as) (joinTail bs)
        (h₁ a (List.mem_cons_self _ _)) (h₂ b (List.mem_cons_self _ _))
        (joinTail_shape as) (joinTail_shape bs) hd
      have eab : a = b := String.ext e
      subst eab
      cases as with
      | nil =>
        cases bs with
        | nil => rfl
        | cons b' bs => simp [joinTail] at hr
      | cons a' as =>
        cases bs with
        | nil => simp [joinTail] at hr
        | cons b' bs =>
          simp only [joinTail, List.cons.injEq, true_and] at hr
          have := ih (b' :: bs) (by simp) (by simp)
            (fun id hid => h₁ id (List.mem_cons_of_mem _ hid))
            (fun id hid => h₂ id (List.mem_cons_of_mem _ hid)) (String.ext hr)
          rw [this]

/-- On lists of comma-free template IDs, the key of `Scan` determines the list. -/
theorem Scan.cacheKey_injective {σ : Type} (svc : ScannerService σ) (t s p : String)
    (ids₁ ids₂ : List String)
    (h₁ : ∀ id ∈ ids₁, ',' ∉ id.data) (h₂ : ∀ id ∈ ids₂, ',' ∉ id.data)
    (h : Scan.cacheKey svc t s p ids₁ = Scan.cacheKey svc t s p ids₂) : ids₁ = ids₂ := by
  cases ids₁ with
  | nil =>
    cases ids₂ with
    | nil => rfl
    | cons b bs =>
      exfalso
      rw [Scan.cacheKey_nil, Scan.cacheKey_cons] at h
      have := congrArg String.length h
      simp only [String.length_append] at this
      have e : ":".length = 1 := rfl
      omega
  | cons a as =>
    cases ids₂ with
    | nil =>
      exfalso
      rw [Scan.cacheKey_nil, Scan.cacheKey_cons] at h
      have := congrArg String.length h
      simp only [String.length_append] at this
      have e : ":".length = 1 := rfl
      omega
    | cons b bs =>
      rw [Scan.cacheKey_cons, Scan.cacheKey_cons] at h
      have hd := congrArg String.data h
      simp only [String.data_append, List.append_cancel_left_eq] at hd
      exact Join_injective _ _ (by simp) (by simp) h₁ h₂ (String.ext hd)

/-- C4, counterexample. The template-ID lists `["a,b"]` and `["a", "b"]` have different
sets of IDs, and `Scan` derives the same key for both. -/
theorem cacheKey_collision_on_comma :
    (¬ ∀ id : String, id ∈ ["a,b"] ↔ id ∈ ["a", "b"])
      ∧ Scan.cacheKey demoService "t" "s" "p" ["a,b"]
          = Scan.cacheKey demoService "t" "s" "p" ["a", "b"] := by
  refine ⟨fun h => ?_, by decide⟩
  have := (h "a").mpr (by simp)
  simp at this

/-- C4, amended. For template-ID lists none of whose IDs contains a comma: when the
sets of IDs of two lists differ, the key that `Scan` and `ThreadSafeScan` derive for
the first differs from the key derived for the second (same target and filters). -/
theorem cacheKey_ne_of_ids_ne {σ : Type} (svc : ScannerService σ) (t s p : String)
    (ids₁ ids₂ : List String)
    (h₁ : ∀ id ∈ ids₁, ',' ∉ id.data) (h₂ : ∀ id ∈ ids₂, ',' ∉ id.data)
    (hne : ¬ ∀ id : String, id ∈ ids₁ ↔ id ∈ ids₂) :
    Scan.cacheKey svc t s p ids₁ ≠ Scan.cacheKey svc t s p ids₂ := by
  intro h
  apply hne
  rw [Scan.cacheKey_injective svc t s p ids₁ ids₂ h₁ h₂ h]
  exact fun _ => Iff.rfl

/-- The witness of C4: the lists `["a.yaml"]` and `["a.yaml", "b.yaml"]`. -/
theorem cacheKey_ne_of_ids_ne_witness :
    (∀ id ∈ ["a.yaml"], ',' ∉ id.data) ∧ (∀ id ∈ ["a.yaml", "b.yaml"], ',' ∉ id.data)
      ∧ (¬ ∀ id : String, id ∈ ["a.yaml"] ↔ id ∈ ["a.yaml", "b.yaml"])
      ∧ Scan.cacheKey demoService "t" "s" "p" ["a.yaml"]
          ≠ Scan.cacheKey demoService "t" "s" "p" ["a.yaml", "b.yaml"] :=
  have h₁ : ∀ id ∈ ["a.yaml"], ',' ∉ id.data := by decide
  have h₂ : ∀ id ∈ ["a.yaml", "b.yaml"], ',' ∉ id.data := by decide
  have hne : ¬ ∀ id : String, id ∈ ["a.yaml"] ↔ id ∈ ["a.yaml", "b.yaml"] := fun h => by
    have := (h "b.yaml").mpr (by simp)
    simp at this
  ⟨h₁, h₂, hne, cacheKey_ne_of_ids_ne demoService "t" "s" "p" _ _ h₁ h₂ hne⟩

/-! ## Template resolution -/

theorem foldl_append_map {α β : Type} (f : α → β) (l : List α) (init : List β) :
    l.foldl (fun acc x => acc ++ [f x]) init = init ++ l.map f := by
  induction l generalizing init with
  | nil => simp
  | cons x l ih => simp [ih]

theorem foldl_append_filter_map {α β : Type} (q : α → Bool) (f : α → β) (l : List α)
    (init : List β) :
    l.foldl (fun acc x => if q x then acc ++ [f x] else acc) init
      = init ++ (l.filter q).map f := by
  induction l generalizing init with
  | nil => simp
  | cons x l ih =>
    by_cases hq : q x = true
    · simp [ih, hq]
    · simp [ih, hq]

/-- The test `strings.HasSuffix` holds exactly of the strings that end in the suffix. -/
theorem HasSuffix_iff (s suffix : String) :
    HasSuffix s suffix = true ↔ ∃ stem : String, s = stem ++ suffix := by
  unfold HasSuffix
  rw [List.isSuffixOf_iff_suffix]
  constructor
  · rintro ⟨t, ht⟩
    exact ⟨⟨t⟩, String.ext (by rw [String.data_append]; exact ht.symm)⟩
  · rintro ⟨stem, rfl⟩
    exact ⟨stem.data, by rw [String.data_append]⟩

/-- C10. For every non-empty template-ID list, whatever the file system holds,
`loadTemplates` returns a nil error and one path per ID, in the order and with the
length of the input, each the ID joined to the templates directory; it makes no call
at all (its trace is unchanged), so the directory is never read. -/
theorem loadTemplates_explicit_ids {σ : Type} (s : ScannerService σ) (env : Env) (w : World σ)
    (templateIDs : List String) (h : templateIDs ≠ []) :
    (loadTemplates s env w templateIDs).1.2 = none
      ∧ (loadTemplates s env w templateIDs).1.1.Templates
          = templateIDs.map (fun id => env.FilepathJoin s.TemplatesDir id)
      ∧ (loadTemplates s env w templateIDs).1.1.Templates.length = templateIDs.length
      ∧ (loadTemplates s env w templateIDs).2 = w := by
  have hl : ¬ templateIDs.length = 0 := by
    intro h0
    exact h (List.length_eq_zero.mp h0)
  simp [loadTemplates, hl, foldl_append_map]

/-- The witness of C10: two IDs resolved where the templates directory does not exist. -/
theorem loadTemplates_explicit_ids_witness :
    ["a.yaml", "b.yaml"] ≠ []
      ∧ (loadTemplates demoService brokenEnv emptyWorld ["a.yaml", "b.yaml"]).1.2 = none
      ∧ (loadTemplates demoService brokenEnv emptyWorld ["a.yaml", "b.yaml"]).1.1.Templates
          = ["a.yaml", "b.yaml"].map (fun id => brokenEnv.FilepathJoin demoService.TemplatesDir id)
      ∧ (loadTemplates demoService brokenEnv emptyWorld ["a.yaml", "b.yaml"]).1.1.Templates.length
          = ["a.yaml", "b.yaml"].length
      ∧ (loadTemplates demoService brokenEnv emptyWorld ["a.yaml", "b.yaml"]).2 = emptyWorld :=
  ⟨by decide, loadTemplates_explicit_ids demoService brokenEnv emptyWorld ["a.yaml", "b.yaml"]
    (by decide)⟩

/-- The directory branch of `loadTemplates`, with its loop as a filter and a map. -/
theorem loadTemplates_nil {σ : Type} (s : ScannerService σ) (env : Env) (w : World σ) :
    loadTemplates s env w [] =
      match env.ReadDir s.TemplatesDir with
      | (_, some err) =>
        (({ Templates := [] }, some err),
          (w.emit (.readDir s.TemplatesDir)).emit
            (.log "Failed to read templates directory %s: %v" [.str s.TemplatesDir, .err err]))
      | (files, none) =>
        if (templateFiles files).map (fun file => env.FilepathJoin s.TemplatesDir file.Name) = []
        then
          (({ Templates := [] },
              some { msg := Sprintf "no templates found in %s" [s.TemplatesDir],
                     notExist := false }),
            (w.emit (.readDir s.TemplatesDir)).emit
              (.log "No templates found in directory: %s" [.str s.TemplatesDir]))
        else
          (({ Templates := (templateFiles files).map
                (fun file => env.FilepathJoin s.TemplatesDir file.Name) }, none),
            w.emit (.readDir s.TemplatesDir)) := by
  unfold loadTemplates templateFiles
  rcases env.ReadDir s.TemplatesDir with ⟨files, _ | err⟩
  · simp only [List.length_nil, if_true]
    rw [foldl_append_filter_map (fun file : DirEntry =>
        !file.IsDir && (HasSuffix file.Name ".yaml" || HasSuffix file.Name ".yml"))
      (fun file : DirEntry => env.FilepathJoin s.TemplatesDir file.Name)]
    simp only [List.nil_append, List.length_eq_zero]
  · simp only [List.length_nil, if_true]

/-- C9. With an empty template-ID list, `loadTemplates` reads the listing of the
templates directory once, and fails exactly when that read fails or the listing has no
non-directory entry whose name ends in `.yaml` or `.yml`; when it succeeds it returns
exactly those entries, in listing order, each joined to the templates directory, the
result is not empty, and the read of the directory is its only call. -/
theorem loadTemplates_directory {σ : Type} (s : ScannerService σ) (env : Env) (w : World σ) :
    ((loadTemplates s env w []).1.2 ≠ none ↔
        ((env.ReadDir s.TemplatesDir).2 ≠ none
          ∨ ∀ file ∈ (env.ReadDir s.TemplatesDir).1,
              ¬ (file.IsDir = false ∧ (HasSuffix file.Name ".yaml" = true
                  ∨ HasSuffix file.Name ".yml" = true))))
      ∧ ((loadTemplates s env w []).1.2 = none →
          (loadTemplates s env w []).1.1.Templates
              = (templateFiles (env.ReadDir s.TemplatesDir).1).map
                  (fun file => env.FilepathJoin s.TemplatesDir file.Name)
            ∧ (loadTemplates s env w []).1.1.Templates ≠ []
            ∧ (loadTemplates s env w []).2.trace = w.trace ++ [Effect.readDir s.TemplatesDir]) := by
  rw [loadTemplates_nil]
  rcases env.ReadDir s.TemplatesDir with ⟨files, _ | err⟩
  · have key : templateFiles files = [] ↔ ∀ file ∈ files,
        ¬ (file.IsDir = false ∧ (HasSuffix file.Name ".yaml" = true
            ∨ HasSuffix file.Name ".yml" = true)) := by
      unfold templateFiles
      rw [List.filter_eq_nil_iff]
      simp
    by_cases hsel : templateFiles files = []
    · have hall := key.mp hsel
      simp only [hsel, List.map_nil, if_true]
      exact ⟨⟨fun _ => Or.inr hall, fun _ => by simp⟩, fun h => by simp at h⟩
    · have hmap : ¬ (templateFiles files).map
          (fun file => env.FilepathJoin s.TemplatesDir file.Name) = [] := by
        simpa using hsel
      have hex : ¬ ∀ file ∈ files,
          ¬ (file.IsDir = false ∧ (HasSuffix file.Name ".yaml" = true
              ∨ HasSuffix file.Name ".yml" = true)) := fun h => hsel (key.mpr h)
      simp only [hmap, if_false]
      refine ⟨⟨fun h => absurd rfl h, fun h => ?_⟩, fun _ => ⟨trivial, hmap, rfl⟩⟩
      rcases h with h | h
      · exact absurd rfl h
      · exact absurd h hex
  · simp

/-! ## The three scans -/

theorem foldl_callback {σ : Type} (events findings : List ResultEvent) (w : World σ) :
    events.foldl callback (findings, w) =
      (findings ++ events,
        { cache := w.cache,
          trace := w.trace ++ events.map (fun event =>
            Effect.log "Found vulnerability: %s (%s) on %s"
              [.str event.Name, .str event.Severity, .str event.Host]) }) := by
  induction events generalizing findings w with
  | nil => simp
  | cons e events ih => simp [callback, World.emit, ih]

/-- C1. Whenever the cache reports found for the key a scan derives (`Scan`,
`ThreadSafeScan`, or `BasicScan` with its key `"basic:" ++ target`), the scan returns
exactly the cached result and a nil error, leaves the cache store as it was, and makes
two calls in all: the `Get`, and one log line. None of them resolves templates, builds
or runs the engine, or is a `Set`; the file system and the engine are arbitrary. -/
theorem cache_hit_short_circuit {σ : Type} (s : ScannerService σ) (env : Env) (w : World σ)
    (call : Call) (cached : ScanResult)
    (hit : s.cache.Get w.cache (call.cacheKey s) = (cached, true)) :
    (call.run s env w).1 = (cached, none)
      ∧ (call.run s env w).2.cache = w.cache
      ∧ (∃ format, effectsSince w (call.run s env w) =
          [Effect.cacheGet (call.cacheKey s),
            Effect.log format [.str call.target, .int cached.Findings.length]])
      ∧ ∀ e ∈ effectsSince w (call.run s env w),
          e.isSet = false ∧ e.isEngine = false ∧ e.isResolve = false := by
  have main : (call.run s env w).1 = (cached, none)
      ∧ (call.run s env w).2.cache = w.cache
      ∧ (∃ format, effectsSince w (call.run s env w) =
          [Effect.cacheGet (call.cacheKey s),
            Effect.log format [.str call.target, .int cached.Findings.length]]) := by
    cases call with
    | scan target sev prot ids =>
      simp only [Call.cacheKey] at hit
      simp only [Call.run, Call.cacheKey, Call.target, Scan, World.emit, hit, effectsSince]
      simp
    | threadSafeScan ctx target sev prot ids =>
      simp only [Call.cacheKey] at hit
      simp only [Call.run, Call.cacheKey, Call.target, ThreadSafeScan, World.emit, hit,
        effectsSince]
      simp
    | basicScan target =>
      simp only [Call.cacheKey] at hit
      simp only [Call.run, Call.cacheKey, Call.target, BasicScan, World.emit, hit, effectsSince]
      simp
  obtain ⟨h1, h2, format, h3⟩ := main
  refine ⟨h1, h2, ⟨format, h3⟩, ?_⟩
  rw [h3]
  intro e he
  simp only [List.mem_cons, List.mem_singleton, List.not_mem_nil, or_false] at he
  rcases he with rfl | rfl <;> exact ⟨rfl, rfl, rfl⟩

/-- The calls `loadTemplates` makes, and its result, do not depend on the world it is
run in; it leaves the cache alone. -/
theorem loadTemplates_world {σ : Type} (s : ScannerService σ) (env : Env) (w w₀ : World σ)
    (ids : List String) :
    (loadTemplates s env w ids).1 = (loadTemplates s env w₀ ids).1
      ∧ ∃ new, (loadTemplates s env w ids).2 = { cache := w.cache, trace := w.trace ++ new }
          ∧ ∀ e ∈ new, e.isSet = false ∧ e.isEngine = false := by
  cases ids with
  | nil =>
    rw [loadTemplates_nil, loadTemplates_nil]
    rcases env.ReadDir s.TemplatesDir with ⟨files, _ | err⟩
    · by_cases h : (templateFiles files).map
          (fun file => env.FilepathJoin s.TemplatesDir file.Name) = []
      · simp only [h, if_true, World.emit, true_and]
        exact ⟨[Effect.readDir s.TemplatesDir,
          Effect.log "No templates found in directory: %s" [.str s.TemplatesDir]],
          by simp, by simp [Effect.isSet, Effect.isEngine]⟩
      · simp only [h, if_false, World.emit, true_and]
        exact ⟨[Effect.readDir s.TemplatesDir], rfl, by simp [Effect.isSet, Effect.isEngine]⟩
    · simp only [World.emit, true_and]
      exact ⟨[Effect.readDir s.TemplatesDir,
        Effect.log "Failed to read templates directory %s: %v" [.str s.TemplatesDir, .err err]],
        by simp, by simp [Effect.isSet, Effect.isEngine]⟩
  | cons id ids =>
    have h := loadTemplates_explicit_ids s env w (id :: ids) (by simp)
    simp only [loadTemplates, List.length_cons, Nat.succ_ne_zero, if_false, true_and]
    exact ⟨[], by simp, by simp⟩

@[simp] theorem World.emit_cache {σ : Type} (w : World σ) (e : Effect) :
    (w.emit e).cache = w.cache := rfl

@[simp] theorem World.emit_trace {σ : Type} (w : World σ) (e : Effect) :
    (w.emit e).trace = w.trace ++ [e] := rfl

theorem Scan_miss_outcome {σ : Type} (s : ScannerService σ) (env : Env) (w : World σ)
    (target sev prot : String) (ids : List String)
    (miss : (s.cache.Get w.cache (Scan.cacheKey s target sev prot ids)).2 = false) :
    ((Call.scan target sev prot ids).stepFails s env w →
        FailedUntouched w (Scan s env w target sev prot ids))
      ∧ (¬ (Call.scan target sev prot ids).stepFails s env w →
        FreshResult s env w (Scan.cacheKey s target sev prot ids) target
          ((Call.scan target sev prot ids).execution s env w).1
          (Scan s env w target sev prot ids)) := by
  obtain ⟨hfst, new, hw, hnew⟩ := loadTemplates_world s env
    ((w.emit (.cacheGet (Scan.cacheKey s target sev prot ids))).emit
      (.log "Starting new scan for target: %s" [.str target])) w ids
  simp only [Call.stepFails, Call.resolveError, Call.engineError, Call.loadError,
    Call.execution, Call.options, Scan, World.emit_cache]
  generalize s.cache.Get w.cache (Scan.cacheKey s target sev prot ids) = g at miss
  obtain ⟨r, f⟩ := g
  simp only at miss
  subst miss
  simp only
  rw [← hfst]
  rcases hL : loadTemplates s env
    ((w.emit (.cacheGet (Scan.cacheKey s target sev prot ids))).emit
      (.log "Starting new scan for target: %s" [.str target])) ids with ⟨⟨ts, e⟩, w'⟩
  rw [hL] at hw
  simp only at hw
  subst hw
  have hnew' : ∀ e ∈ new, e.isSet = false := fun e he => (hnew e he).1
  cases e with
  | some err =>
    simp [FailedUntouched, effectsSince]
    exact hnew'
  | none =>
    simp only []
    cases hE : env.NewNucleiEngine (Scan.options ts sev prot) with
    | some err =>
      simp [FailedUntouched, effectsSince, or_imp, forall_and]
      exact hnew'
    | none =>
      cases hLd : env.LoadAllTemplates (Scan.options ts sev prot) with
      | some err =>
        simp [FailedUntouched, effectsSince, or_imp, forall_and]
        exact hnew'
      | none =>
        rcases hX : env.ExecuteWithCallback (Scan.options ts sev prot) [target] false with
          ⟨evs, _ | xerr⟩
        · simp only [FreshResult, effectsSince, foldl_callback, World.emit_cache,
            World.emit_trace, List.nil_append, ne_eq, not_true_eq_false, or_self,
            not_false_eq_true, false_implies, true_implies, true_and, and_true,
            List.append_assoc, List.drop_left, List.cons_append]
          refine ⟨Effect.cacheGet (Scan.cacheKey s target sev prot ids)
            :: Effect.log "Starting new scan for target: %s" [.str target]
            :: (new ++ Effect.newNucleiEngine (Scan.options ts sev prot)
            :: Effect.loadAllTemplates :: Effect.loadTargets [target] false
            :: Effect.executeWithCallback
            :: evs.map (fun event => Effect.log "Found vulnerability: %s (%s) on %s"
                [.str event.Name, .str event.Severity, .str event.Host])),
            [Effect.log "Scan completed for %s, found %d vulnerabilities"
              [.str target, .int evs.length], Effect.close], ?_, ?_, ?_⟩
          · simp
          · simp [or_imp, forall_and]
            exact hnew'
          · simp
        · simp [FailedUntouched, effectsSince, foldl_callback, or_imp, forall_and]
          exact hnew'

theorem ThreadSafeScan_miss_outcome {σ : Type} (s : ScannerService σ) (env : Env) (w : World σ)
    (ctx : Context) (target sev prot : String) (ids : List String)
    (miss : (s.cache.Get w.cache (Scan.cacheKey s target sev prot ids)).2 = false) :
    ((Call.threadSafeScan ctx target sev prot ids).stepFails s env w →
        FailedUntouched w (ThreadSafeScan s env w ctx target sev prot ids))
      ∧ (¬ (Call.threadSafeScan ctx target sev prot ids).stepFails s env w →
        FreshResult s env w (Scan.cacheKey s target sev prot ids) target
          ((Call.threadSafeScan ctx target sev prot ids).execution s env w).1
          (ThreadSafeScan s env w ctx target sev prot ids)) := by
  obtain ⟨hfst, new, hw, hnew⟩ := loadTemplates_world s env
    ((w.emit (.cacheGet (Scan.cacheKey s target sev prot ids))).emit
      (.log "Starting new thread-safe scan for target: %s" [.str target])) w ids
  simp only [Call.stepFails, Call.resolveError, Call.engineError, Call.loadError,
    Call.execution, Call.options, ThreadSafeScan, World.emit_cache]
  generalize s.cache.Get w.cache (Scan.cacheKey s target sev prot ids) = g at miss
  obtain ⟨r, f⟩ := g
  simp only at miss
  subst miss
  simp only
  rw [← hfst]
  rcases hL : loadTemplates s env
    ((w.emit (.cacheGet (Scan.cacheKey s target sev prot ids))).emit
      (.log "Starting new thread-safe scan for target: %s" [.str target])) ids
    with ⟨⟨ts, e⟩, w'⟩
  rw [hL] at hw
  simp only at hw
  subst hw
  have hnew' : ∀ e ∈ new, e.isSet = false := fun e he => (hnew e he).1
  cases e with
  | some err =>
    simp [FailedUntouched, effectsSince]
    exact hnew'
  | none =>
    simp only []
    cases hE : env.NewThreadSafeNucleiEngineCtx ctx (Scan.options ts sev prot) with
    | some err =>
      simp [FailedUntouched, effectsSince, or_imp, forall_and]
      exact hnew'
    | none =>
      rcases hX : env.ExecuteNucleiWithOptsCtx ctx (Scan.options ts sev prot) [target] with
        ⟨evs, _ | xerr⟩
      · simp only [FreshResult, effectsSince, foldl_callback, World.emit_cache,
          World.emit_trace, List.nil_append, ne_eq, not_true_eq_false, or_self,
          not_false_eq_true, false_implies, true_implies, true_and, and_true,
          List.append_assoc, List.drop_left, List.cons_append]
        refine ⟨Effect.cacheGet (Scan.cacheKey s target sev prot ids)
          :: Effect.log "Starting new thread-safe scan for target: %s" [.str target]
          :: (new ++ Effect.newThreadSafeNucleiEngineCtx ctx (Scan.options ts sev prot)
          :: Effect.globalResultCallback
          :: Effect.executeNucleiWithOptsCtx ctx [target] (Scan.options ts sev prot)
          :: evs.map (fun event => Effect.log "Found vulnerability: %s (%s) on %s"
              [.str event.Name, .str event.Severity, .str event.Host])),
          [Effect.log "Thread-safe scan completed for %s, found %d vulnerabilities"
            [.str target, .int evs.length], Effect.close], ?_, ?_, ?_⟩
        · simp
        · simp [or_imp, forall_and]
          exact hnew'
        · simp
      · simp [FailedUntouched, effectsSince, foldl_callback, or_imp, forall_and]
        exact hnew'

theorem BasicScan_miss_outcome {σ : Type} (s : ScannerService σ) (env : Env) (w : World σ)
    (target : String)
    (miss : (s.cache.Get w.cache (BasicScan.cacheKey target)).2 = false) :
    ((Call.basicScan target).stepFails s env w → FailedUntouched w (BasicScan s env w target))
      ∧ (¬ (Call.basicScan target).stepFails s env w →
        FreshResult s env w (BasicScan.cacheKey target) target
          ((Call.basicScan target).execution s env w).1 (BasicScan s env w target)) := by
  simp only [Call.stepFails, Call.resolveError, Call.engineError, Call.loadError,
    Call.execution, Call.options, BasicScan, World.emit_cache]
  generalize s.cache.Get w.cache (BasicScan.cacheKey target) = g at miss
  obtain ⟨r, f⟩ := g
  simp only at miss
  subst miss
  simp only
  by_cases hS : IsNotExist (env.Stat (env.FilepathJoin s.TemplatesDir s.BasicTemplateName)) = true
  · simp [FailedUntouched, effectsSince, hS]
  · simp only [hS, Bool.false_eq_true, if_false]
    cases hE : env.NewNucleiEngine
        (BasicScan.options (env.FilepathJoin s.TemplatesDir s.BasicTemplateName)) with
    | some err =>
      simp [FailedUntouched, effectsSince]
    | none =>
      rcases hX : env.ExecuteWithCallback
          (BasicScan.options (env.FilepathJoin s.TemplatesDir s.BasicTemplateName))
          [target] true with ⟨evs, _ | xerr⟩
      · simp only [FreshResult, effectsSince, foldl_callback, World.emit_cache,
          World.emit_trace, List.nil_append, ne_eq, not_true_eq_false, or_self,
          not_false_eq_true, false_implies, true_implies, true_and, and_true,
          List.append_assoc, List.drop_left, List.cons_append]
        refine ⟨Effect.cacheGet (BasicScan.cacheKey target)
          :: Effect.log "Starting new basic scan for target: %s" [.str target]
          :: Effect.stat (env.FilepathJoin s.TemplatesDir s.BasicTemplateName)
          :: Effect.newNucleiEngine
              (BasicScan.options (env.FilepathJoin s.TemplatesDir s.BasicTemplateName))
          :: Effect.loadTargets [target] true
          :: Effect.executeWithCallback
          :: evs.map (fun event => Effect.log "Found vulnerability: %s (%s) on %s"
              [.str event.Name, .str event.Severity, .str event.Host]),
          [Effect.log "Basic scan completed for %s, found %d vulnerabilities"
            [.str target, .int evs.length], Effect.close], ?_, ?_, ?_⟩
        · simp
        · simp [or_imp, forall_and]
        · simp
      · simp [FailedUntouched, effectsSince, foldl_callback, or_imp, forall_and]

/-- On a miss, each of the three scans either fails and leaves the cache untouched,
or succeeds with a fresh, cached result. -/
theorem Call.miss_outcome {σ : Type} (s : ScannerService σ) (env : Env) (w : World σ)
    (call : Call) (miss : (s.cache.Get w.cache (call.cacheKey s)).2 = false) :
    (call.stepFails s env w → FailedUntouched w (call.run s env w))
      ∧ (¬ call.stepFails s env w →
        FreshResult s env w (call.cacheKey s) call.target (call.execution s env w).1
          (call.run s env w)) := by
  cases call with
  | scan target sev prot ids => exact Scan_miss_outcome s env w target sev prot ids miss
  | threadSafeScan ctx target sev prot ids =>
    exact ThreadSafeScan_miss_outcome s env w ctx target sev prot ids miss
  | basicScan target => exact BasicScan_miss_outcome s env w target miss

/-- The effects of a call that found its key in the cache. -/
theorem Scan_hit {σ : Type} (s : ScannerService σ) (env : Env) (w : World σ)
    (target sev prot : String) (ids : List String) (cached : ScanResult)
    (hit : s.cache.Get w.cache (Scan.cacheKey s target sev prot ids) = (cached, true)) :
    Scan s env w target sev prot ids =
      ((cached, none),
        { cache := w.cache,
          trace := w.trace ++ [Effect.cacheGet (Scan.cacheKey s target sev prot ids),
            Effect.log "Returning cached scan result for %s (%d findings)"
              [.str target, .int cached.Findings.length]] }) := by
  simp only [Scan, World.emit, hit]
  simp

/-- C2. For each of `Scan`, `ThreadSafeScan` and `BasicScan`: when the cache misses and
a later step fails (template resolution or the existence check of the basic template,
engine construction, template loading, engine execution), the call returns the empty
`ScanResult` (empty target, no findings) with a non-nil error, none of its calls is a
`Set`, the cache store is the one it started with, and a `Get` for the same key after
the call still reports not-found. -/
theorem miss_failure_leaves_cache_untouched {σ : Type} (s : ScannerService σ) (env : Env)
    (w : World σ) (call : Call)
    (miss : (s.cache.Get w.cache (call.cacheKey s)).2 = false)
    (fails : call.stepFails s env w) :
    (call.run s env w).1.1 = ScanResult.empty
      ∧ (call.run s env w).1.1.Target = ""
      ∧ (call.run s env w).1.1.Findings = []
      ∧ (call.run s env w).1.2 ≠ none
      ∧ (∀ e ∈ effectsSince w (call.run s env w), e.isSet = false)
      ∧ (call.run s env w).2.cache = w.cache
      ∧ (s.cache.Get (call.run s env w).2.cache (call.cacheKey s)).2 = false := by
  obtain ⟨h1, h2, h3, h4⟩ := (Call.miss_outcome s env w call miss).1 fails
  refine ⟨h1, ?_, ?_, h2, h4, h3, ?_⟩
  · rw [h1]; rfl
  · rw [h1]; rfl
  · rw [h3]; exact miss

/-- C7. For each of `Scan`, `ThreadSafeScan` and `BasicScan`: when the cache misses and
every step succeeds, the call returns a nil error and a result whose target is the
requested target and whose findings are the events the engine delivered to the
callback, each once and in delivery order; exactly one of its calls is a `Set`, with
the derived key and the returned result; the store afterwards is the old store after
that `Set`; and the `Set` comes after the engine execution returned a nil error. -/
theorem miss_success_caches_result {σ : Type} (s : ScannerService σ) (env : Env)
    (w : World σ) (call : Call)
    (miss : (s.cache.Get w.cache (call.cacheKey s)).2 = false)
    (ok : ¬ call.stepFails s env w) :
    (call.run s env w).1.2 = none
      ∧ (call.run s env w).1.1.Target = call.target
      ∧ (call.run s env w).1.1.Findings = (call.execution s env w).1
      ∧ (call.execution s env w).2 = none
      ∧ (effectsSince w (call.run s env w)).filter Effect.isSet
          = [Effect.cacheSet (call.cacheKey s) (call.run s env w).1.1]
      ∧ (call.run s env w).2.cache
          = s.cache.Set w.cache (call.cacheKey s) (call.run s env w).1.1
      ∧ ∃ pre post, effectsSince w (call.run s env w) =
          pre ++ Effect.executeReturned none :: Effect.timeNow
            :: Effect.cacheSet (call.cacheKey s) (call.run s env w).1.1 :: post := by
  obtain ⟨h1, h2, pre, post, h3, hpre, hpost⟩ := (Call.miss_outcome s env w call miss).2 ok
  have hx : (call.execution s env w).2 = none := by
    by_contra hne
    exact ok (Or.inr (Or.inr (Or.inr hne)))
  refine ⟨by rw [h1], by rw [h1], by rw [h1], hx, ?_, h2, pre, post, h3⟩
  rw [h3]
  have fpre : pre.filter Effect.isSet = [] := by
    rw [List.filter_eq_nil_iff]
    intro e he
    rw [hpre e he]
    decide
  have fpost : post.filter Effect.isSet = [] := by
    rw [List.filter_eq_nil_iff]
    intro e he
    rw [hpost e he]
    decide
  simp [List.filter_cons, fpre, fpost]

/-- C8. With a cache whose `Get` returns the value last `Set` for a key: after a
`Scan` that returned a nil error, a second `Scan` with the same arguments, in the world
the first one left and whatever the file system and the engine now answer, returns the
same `ScanResult` (target, findings and scan time) with a nil error, leaves the store
as it is, and makes no call on the engine and no `Set`. -/
theorem second_scan_is_memoized {σ : Type} (s : ScannerService σ) (env env' : Env)
    (w : World σ) (t sev p : String) (ids : List String)
    (law : ∀ store key result, s.cache.Get (s.cache.Set store key result) key = (result, true))
    (ok : (Scan s env w t sev p ids).1.2 = none) :
    (Scan s env' (Scan s env w t sev p ids).2 t sev p ids).1
        = ((Scan s env w t sev p ids).1.1, none)
      ∧ (Scan s env' (Scan s env w t sev p ids).2 t sev p ids).2.cache
          = (Scan s env w t sev p ids).2.cache
      ∧ ∀ e ∈ effectsSince (Scan s env w t sev p ids).2
            (Scan s env' (Scan s env w t sev p ids).2 t sev p ids),
          e.isSet = false ∧ e.isEngine = false := by
  have hit : s.cache.Get (Scan s env w t sev p ids).2.cache (Scan.cacheKey s t sev p ids)
      = ((Scan s env w t sev p ids).1.1, true) := by
    rcases hG : s.cache.Get w.cache (Scan.cacheKey s t sev p ids) with ⟨r, _ | _⟩
    · have miss : (s.cache.Get w.cache (Scan.cacheKey s t sev p ids)).2 = false := by rw [hG]
      have out := Scan_miss_outcome s env w t sev p ids miss
      by_cases hf : (Call.scan t sev p ids).stepFails s env w
      · exact absurd ok (out.1 hf).2.1
      · rw [(out.2 hf).2.1]
        exact law _ _ _
    · rw [Scan_hit s env w t sev p ids r hG]
      exact hG
  rw [Scan_hit s env' _ t sev p ids _ hit]
  refine ⟨rfl, rfl, ?_⟩
  simp [effectsSince]

/-- The witness of C1: the cache-hit test of the suite, with the templates directory
missing and no engine to be had. -/
theorem cache_hit_short_circuit_witness :
    demoService.cache.Get cachedWorld.cache (hitCall.cacheKey demoService) = (cachedResult, true)
      ∧ (hitCall.run demoService brokenEnv cachedWorld).1 = (cachedResult, none)
      ∧ (hitCall.run demoService brokenEnv cachedWorld).2.cache = cachedWorld.cache :=
  have hit : demoService.cache.Get cachedWorld.cache (hitCall.cacheKey demoService)
      = (cachedResult, true) := by decide
  have h := cache_hit_short_circuit demoService brokenEnv cachedWorld hitCall cachedResult hit
  ⟨hit, h.1, h.2.1⟩

/-- The witness of C2: the cache-miss test of the suite, whose templates directory
does not exist. -/
theorem miss_failure_leaves_cache_untouched_witness :
    (demoService.cache.Get emptyWorld.cache (missCall.cacheKey demoService)).2 = false
      ∧ missCall.stepFails demoService brokenEnv emptyWorld
      ∧ (missCall.run demoService brokenEnv emptyWorld).1.1 = ScanResult.empty
      ∧ (missCall.run demoService brokenEnv emptyWorld).1.2 ≠ none
      ∧ (missCall.run demoService brokenEnv emptyWorld).2.cache = emptyWorld.cache :=
  have miss : (demoService.cache.Get emptyWorld.cache (missCall.cacheKey demoService)).2
      = false := by decide
  have fails : missCall.stepFails demoService brokenEnv emptyWorld := by decide
  have h := miss_failure_leaves_cache_untouched demoService brokenEnv emptyWorld missCall
    miss fails
  ⟨miss, fails, h.1, h.2.2.2.1, h.2.2.2.2.2.1⟩

/-- The witness of C7: a first scan of `x`, whose engine reports one finding. -/
theorem miss_success_caches_result_witness :
    (demoService.cache.Get emptyWorld.cache ((Call.scan "x" "" "" []).cacheKey demoService)).2
        = false
      ∧ ¬ (Call.scan "x" "" "" []).stepFails demoService demoEnv emptyWorld
      ∧ ((Call.scan "x" "" "" []).run demoService demoEnv emptyWorld).1.2 = none
      ∧ ((Call.scan "x" "" "" []).run demoService demoEnv emptyWorld).1.1.Target = "x"
      ∧ ((Call.scan "x" "" "" []).run demoService demoEnv emptyWorld).1.1.Findings = [demoEvent] :=
  have miss : (demoService.cache.Get emptyWorld.cache
      ((Call.scan "x" "" "" []).cacheKey demoService)).2 = false := by decide
  have ok : ¬ (Call.scan "x" "" "" []).stepFails demoService demoEnv emptyWorld := by
    intro h
    rcases h with h | h | h | h
    · exact h (by decide)
    · exact h rfl
    · exact h rfl
    · exact h rfl
  have h := miss_success_caches_result demoService demoEnv emptyWorld (Call.scan "x" "" "" [])
    miss ok
  ⟨miss, ok, h.1, h.2.1, h.2.2.1⟩

/-- The witness of C8: a scan of `x` over the list cache, then the same scan where
the templates directory is gone. -/
theorem second_scan_is_memoized_witness :
    (∀ store key result,
        demoService.cache.Get (demoService.cache.Set store key result) key = (result, true))
      ∧ (Scan demoService demoEnv emptyWorld "x" "" "" []).1.2 = none
      ∧ (Scan demoService brokenEnv (Scan demoService demoEnv emptyWorld "x" "" "" []).2
            "x" "" "" []).1
          = ((Scan demoService demoEnv emptyWorld "x" "" "" []).1.1, none) :=
  have law : ∀ store key result,
      demoService.cache.Get (demoService.cache.Set store key result) key = (result, true) := by
    intro store key result
    simp [demoService, listCache]
  have ok : (Scan demoService demoEnv emptyWorld "x" "" "" []).1.2 = none := by decide
  ⟨law, ok, (second_scan_is_memoized demoService demoEnv brokenEnv emptyWorld "x" "" "" []
    law ok).1⟩

/-! ## Sensitivity of the key to each argument -/

/-- A string is determined by its characters. -/
theorem eq_of_data_eq {a b : String} (h : a.data = b.data) : a = b :=
  String.ext h

/-- C11. Varying any one argument of `CreateCacheKey` changes the key: with the other
two arguments fixed, a different target gives a different key, a different severity
gives a different key, and a different protocol filter gives a different key. -/
theorem CreateCacheKey_varies {σ : Type} (svc : ScannerService σ) (t s p t' s' p' : String) :
    (t' ≠ t → CreateCacheKey svc t' s p ≠ CreateCacheKey svc t s p)
      ∧ (s' ≠ s → CreateCacheKey svc t s' p ≠ CreateCacheKey svc t s p)
      ∧ (p' ≠ p → CreateCacheKey svc t s p' ≠ CreateCacheKey svc t s p) := by
  simp only [CreateCacheKey, Sprintf_key]
  refine ⟨fun hne h => hne (eq_of_data_eq ?_), fun hne h => hne (eq_of_data_eq ?_),
    fun hne h => hne (eq_of_data_eq ?_)⟩
  · have hd := congrArg String.data h
    simp only [String.data_append, List.append_assoc] at hd
    exact List.append_cancel_right hd
  · have hd := congrArg String.data h
    simp only [String.data_append, List.append_assoc] at hd
    exact List.append_cancel_right (List.append_cancel_left (List.append_cancel_left hd))
  · have hd := congrArg String.data h
    simp only [String.data_append, List.append_assoc] at hd
    exact List.append_cancel_left (List.append_cancel_left
      (List.append_cancel_left (List.append_cancel_left hd)))

/-- The witness of C11: the keys of the test suite with one argument changed. -/
theorem CreateCacheKey_varies_witness :
    "test.com" ≠ "example.com" ∧ "low" ≠ "high" ∧ "tcp" ≠ "http"
      ∧ CreateCacheKey demoService "test.com" "high" "http"
          ≠ CreateCacheKey demoService "example.com" "high" "http"
      ∧ CreateCacheKey demoService "example.com" "low" "http"
          ≠ CreateCacheKey demoService "example.com" "high" "http"
      ∧ CreateCacheKey demoService "example.com" "high" "tcp"
          ≠ CreateCacheKey demoService "example.com" "high" "http" :=
  have ht : "test.com" ≠ "example.com" := by decide
  have hs : "low" ≠ "high" := by decide
  have hp : "tcp" ≠ "http" := by decide
  have h := CreateCacheKey_varies demoService "example.com" "high" "http" "test.com" "low" "tcp"
  ⟨ht, hs, hp, h.1 ht, h.2.1 hs, h.2.2 hp⟩

end NucleiMcp
